import Mathlib

/-
Shallow embedding of `find_func_names.py` (cisco_tools).

The script runs inside a disassembler and consumes pre-computed disassembly
facts through a host API (`Strings()`, `XrefsTo`, `XrefsFrom`, `GetString`,
`GetFunctionAttr`, `GetMnem`, `idaapi.is_call_insn`, `GetFunctionName`,
`Functions()`).  We model one disassembled image as explicit finite data and
give each host call a definition over it:

  * `Image.strings` : the string table, `(address, content)` in enumeration
    order (the order `Strings()` yields them);
  * `Image.xrefs`   : every cross-reference as a `(frm, to)` pair;
  * `Image.funcs`   : every function as `(name, start, end)`;
  * `Image.mnems`   : instruction mnemonics by address (absent => "");
  * `Image.calls`   : addresses whose instruction is a call.

`GetFunctionAttr` returns `BADADDR` when an address has no enclosing
function, as the host does.  Addresses are `Nat`; the scan cursors of the
directional searches are `Int` because the script steps them by a signed
`direction` (host queries at negative addresses yield nothing, which the
guarded `...I` variants reproduce).  The two directional `while` loops are
written with an explicit fuel that strictly exceeds the number of in-bounds
steps (the cursor moves `ADDR_WIDTH` toward the boundary each iteration and
the fuel exceeds the full distance), so the fuel never runs out and the
definitions compute exactly the loops' results.

Python-2 `dict`s that the script only extends are modelled as association
lists in insertion order (where the script iterates a dict, the model fixes
insertion order; no claim below depends on that choice).  The per-run
memoization caches (`full_func_defs` / `string_func_defs`) are keyed by
function name and affect only sharing when names are distinct, not the
value a first build computes; they are omitted, so the model is the
cache-free semantics of one build per function.  Statements such as line 267's
`function_address.iteritems()` (an `int` has no `iteritems`) raise at run
time; fallible resolution paths therefore return
`Except String (Option Nat)`, with the raised exception's name as the error.
-/

-- Heuristics (find_func_names.py lines 16-18)
def MAX_UNIQUE_STRINGS : Nat := 2
def MAX_UNIQUE_CALLING_STRINGS : Nat := 5
def MAX_CALLED_FUNCTIONS : Nat := 10

-- Per-architecture variables (lines 21-22)
def ADDR_WIDTH : Nat := 4
def JMP_CALL_PREFIXES : List String := ["j", "b"]

-- IDA's failure value for GetFunctionAttr on a 32-bit image.
def BADADDR : Nat := 4294967295

structure Image where
  strings : List (Nat × String)
  xrefs : List (Nat × Nat)
  funcs : List (String × Nat × Nat)
  mnems : List (Nat × String)
  calls : List Nat

-- XrefsTo(a): sources of every cross-reference whose target is a.
def XrefsTo (img : Image) (a : Nat) : List Nat :=
  (img.xrefs.filter (fun x => x.2 == a)).map (fun x => x.1)

-- XrefsFrom(a): targets of every cross-reference whose source is a.
def XrefsFrom (img : Image) (a : Nat) : List Nat :=
  (img.xrefs.filter (fun x => x.1 == a)).map (fun x => x.2)

-- GetString(a): content of the string record at a ("" when none).
def GetString (img : Image) (a : Nat) : String :=
  match img.strings.find? (fun r => r.1 == a) with
  | some r => r.2
  | none => ""

-- Enclosing function of an address: first (name, start, end) with start <= a < end.
def funcOf (img : Image) (a : Nat) : Option (String × Nat × Nat) :=
  img.funcs.find? (fun f => f.2.1 ≤ a && a < f.2.2)

-- GetFunctionAttr(a, FUNCATTR_START)
def funcStartAttr (img : Image) (a : Nat) : Nat :=
  match funcOf img a with
  | some f => f.2.1
  | none => BADADDR

-- GetFunctionAttr(a, FUNCATTR_END)
def funcEndAttr (img : Image) (a : Nat) : Nat :=
  match funcOf img a with
  | some f => f.2.2
  | none => BADADDR

-- GetFunctionName(a)
def GetFunctionName (img : Image) (a : Nat) : String :=
  match funcOf img a with
  | some f => f.1
  | none => ""

-- Functions(): enumeration of function start addresses.
def Functions (img : Image) : List Nat :=
  img.funcs.map (fun f => f.2.1)

-- idaapi.is_call_insn(a)
def is_call_insn (img : Image) (a : Nat) : Bool :=
  img.calls.contains a

-- GetMnem at a possibly negative scan cursor ("" off the image).
def GetMnemI (img : Image) (current : Int) : String :=
  if current < 0 then ""
  else
    match img.mnems.find? (fun p => p.1 == current.toNat) with
    | some p => p.2
    | none => ""

def is_call_insnI (img : Image) (current : Int) : Bool :=
  if current < 0 then false else is_call_insn img current.toNat

def XrefsFromI (img : Image) (current : Int) : List Nat :=
  if current < 0 then [] else XrefsFrom img current.toNat

-- Python range(start, stop, step) over addresses, step > 0.
def addrRange (start stop step : Nat) : List Nat :=
  (List.range ((stop - start + step - 1) / step)).map (fun i => start + step * i)

-- Cached table string_addrs (CiscoFunctionFinder.__init__, line 84).
def string_addrs (img : Image) : List Nat :=
  img.strings.map (fun r => r.1)

-- Cached table string_cnts (line 86): records holding exactly this text.
def string_cnts (img : Image) (s : String) : Nat :=
  (img.strings.filter (fun r => r.2 == s)).length

-- Cached table string_name_to_addrs (line 85): their addresses, in order.
def string_name_to_addrs (img : Image) (s : String) : List Nat :=
  (img.strings.filter (fun r => r.2 == s)).map (fun r => r.1)

-- count_generator (lines 97-101): counts by iterating, one at a time.
def count_generator (l : List Nat) : Nat :=
  l.foldl (fun cnt _ => cnt + 1) 0

-- string_is_unique (lines 103-106).
def string_is_unique (img : Image) (string_address : Nat) : Bool :=
  count_generator (XrefsTo img string_address) == 1 &&
    string_cnts img (GetString img string_address) == 1

/-
FunctionInfo (lines 24-71).  The Python attribute `end` is a Lean keyword
and becomes `endAddr`; `called_funcs` nests the type, so the record is an
inductive with explicit accessors.
-/

inductive FunctionInfo : Type where
  | mk (name : String) (start : Nat) (endAddr : Nat)
      (strings : List (String × Bool))
      (calling_strings : List (String × Bool × Int))
      (called_funcs : List FunctionInfo)

def FunctionInfo.name : FunctionInfo → String
  | .mk n _ _ _ _ _ => n

def FunctionInfo.start : FunctionInfo → Nat
  | .mk _ s _ _ _ _ => s

def FunctionInfo.endAddr : FunctionInfo → Nat
  | .mk _ _ e _ _ _ => e

def FunctionInfo.strings : FunctionInfo → List (String × Bool)
  | .mk _ _ _ st _ _ => st

def FunctionInfo.calling_strings : FunctionInfo → List (String × Bool × Int)
  | .mk _ _ _ _ cs _ => cs

def FunctionInfo.called_funcs : FunctionInfo → List FunctionInfo
  | .mk _ _ _ _ _ cf => cf

-- FunctionInfo.__init__ (lines 26-32): end comes from GetFunctionAttr.
def FunctionInfo.init (img : Image) (name : String) (address : Nat) : FunctionInfo :=
  .mk name address (funcEndAttr img address) [] [] []

-- add_string (lines 53-54)
def FunctionInfo.add_string (f : FunctionInfo) (string : String) (unique : Bool) : FunctionInfo :=
  match f with
  | .mk n s e st cs cf => .mk n s e (st ++ [(string, unique)]) cs cf

-- expand_strings (lines 56-58): add_string over a list.
def FunctionInfo.expand_strings (f : FunctionInfo) (infos : List (String × Bool)) : FunctionInfo :=
  match f with
  | .mk n s e st cs cf => .mk n s e (st ++ infos) cs cf

-- add_calling_string (lines 60-61)
def FunctionInfo.add_calling_string (f : FunctionInfo) (string : String) (unique : Bool)
    (direction : Int) : FunctionInfo :=
  match f with
  | .mk n s e st cs cf => .mk n s e st (cs ++ [(string, unique, direction)]) cf

-- set_call_info (lines 63-64)
def FunctionInfo.set_call_info (f : FunctionInfo) (call_info : List FunctionInfo) : FunctionInfo :=
  match f with
  | .mk n s e st cs _ => .mk n s e st cs call_info

def FunctionInfo.unique_string_count (f : FunctionInfo) : Nat :=
  (f.strings.filter (fun s => s.2)).length

def FunctionInfo.unique_calling_count (f : FunctionInfo) : Nat :=
  (f.calling_strings.filter (fun s => s.2.1)).length

-- has_enough (lines 66-71)
def FunctionInfo.has_enough (f : FunctionInfo) : Bool :=
  if f.unique_string_count ≥ MAX_UNIQUE_STRINGS then true
  else if f.unique_calling_count ≥ MAX_UNIQUE_CALLING_STRINGS then true
  else false

-- get_strings_from_function (lines 108-115)
def get_strings_from_function (img : Image) (func : FunctionInfo) : List (String × Bool) :=
  (addrRange func.start func.endAddr ADDR_WIDTH).flatMap (fun address =>
    ((XrefsFrom img address).filter (fun t => (string_addrs img).contains t)).map
      (fun t => (GetString img t, string_is_unique img t)))

/-
search_for_string_before_call (lines 195-205).  The while loop advances an
Int cursor by `direction` until it leaves `(address, end_address)` or (with
call_only false) hits a mnemonic starting in JMP_CALL_PREFIXES; each step
first checks the cursor's cross-references for a string-table target.
-/

def in_scan_bounds (current end_address direction : Int) : Bool :=
  (0 < direction && current < end_address) || (direction < 0 && end_address < current)

def string_xref_at (img : Image) (current : Int) : Option Nat :=
  (XrefsFromI img current).find? (fun t => (string_addrs img).contains t)

def mnem_continue (img : Image) (current : Int) : Bool :=
  match (GetMnemI img current).toList with
  | [] => true
  | c :: _ => !(JMP_CALL_PREFIXES.contains (String.singleton c))

def search_string_loop (img : Image) (end_address direction : Int) (call_only : Bool) :
    Nat → Int → Option Nat
  | 0, _ => none
  | fuel + 1, current =>
    if in_scan_bounds current end_address direction &&
        (if call_only then !(is_call_insnI img current) else mnem_continue img current) then
      match string_xref_at img current with
      | some t => some t
      | none => search_string_loop img end_address direction call_only fuel (current + direction)
    else none

def search_for_string_before_call (img : Image) (address : Nat) (end_address : Nat)
    (direction : Int) (call_only : Bool) : Option Nat :=
  search_string_loop img (end_address : Int) direction call_only
    (((end_address : Int) - (address : Int)).natAbs + 8) ((address : Int) + direction)

-- get_call_destination (lines 219-223)
def get_call_destination (img : Image) (address : Nat) : Option Nat :=
  (XrefsFrom img address).find? (fun t => !(funcStartAttr img t == funcStartAttr img address))

def get_call_destinationI (img : Image) (current : Int) : Option Nat :=
  if current < 0 then none else get_call_destination img current.toNat

-- search_for_call (lines 225-231)
def search_call_loop (img : Image) (end_address direction : Int) : Nat → Int → Option Int
  | 0, _ => none
  | fuel + 1, current =>
    if in_scan_bounds current end_address direction then
      if is_call_insnI img current then some current
      else search_call_loop img end_address direction fuel (current + direction)
    else none

def search_for_call (img : Image) (address : Nat) (end_address : Nat) (direction : Int) :
    Option Nat :=
  match search_call_loop img (end_address : Int) direction
      (((end_address : Int) - (address : Int)).natAbs + 8) ((address : Int) + direction) with
  | some current => get_call_destinationI img current
  | none => none

/-
generate_function_def (lines 136-173), string part.  One xref to func.start
is processed per loop iteration (lines 144-161): for a call site, a forward
then a backward directional string search may each append a calling string;
after every iteration the loop breaks if has_enough.
-/

def process_call_site (img : Image) (func : FunctionInfo) (address : Nat) : FunctionInfo :=
  if is_call_insn img address then
    let func_start := funcStartAttr img address
    let func_end := funcEndAttr img address
    let f1 :=
      match search_for_string_before_call img address func_end (ADDR_WIDTH : Int) false with
      | some sa =>
          func.add_calling_string (GetString img sa) (string_is_unique img sa) (ADDR_WIDTH : Int)
      | none => func
    match search_for_string_before_call img address func_start (-(ADDR_WIDTH : Int)) false with
    | some sa =>
        f1.add_calling_string (GetString img sa) (string_is_unique img sa) (-(ADDR_WIDTH : Int))
    | none => f1
  else func

def calling_scan (img : Image) (func : FunctionInfo) : List Nat → FunctionInfo
  | [] => func
  | address :: rest =>
    let f1 := process_call_site img func address
    if f1.has_enough then f1 else calling_scan img f1 rest

-- generate_function_def with generate_called_funcs = False: interior strings
-- then the calling-string loop, never the call-graph fallback (lines 143-161).
def generate_function_def_shallow (img : Image) (func : FunctionInfo) : FunctionInfo :=
  calling_scan img (func.expand_strings (get_strings_from_function img func))
    (XrefsTo img func.start)

-- generate_call_info (lines 117-134): walk the body, record each call's
-- destination once (insertion-ordered dict), then build each target shallow.
def collect_called (img : Image) (func : FunctionInfo) : List (Nat × String) :=
  (addrRange func.start func.endAddr ADDR_WIDTH).foldl (fun acc address =>
    if is_call_insn img address then
      match get_call_destination img address with
      | some func_address =>
        if acc.any (fun p => p.1 == func_address) then acc
        else acc ++ [(func_address, GetFunctionName img func_address)]
      | none => acc
    else acc) []

def generate_call_info (img : Image) (func : FunctionInfo) : List FunctionInfo :=
  (collect_called img func).map (fun p =>
    generate_function_def_shallow img (FunctionInfo.init img p.2 p.1))

-- generate_function_def with generate_called_funcs = True (lines 136-173).
def generate_function_def (img : Image) (func : FunctionInfo) : FunctionInfo :=
  let f1 := generate_function_def_shallow img func
  if f1.has_enough then f1 else f1.set_call_info (generate_call_info img f1)

-- __init__'s filters (lines 92-95) and generate_function_defs (lines 175-193).
def bad_prefixes_list : List String := ["sub_", "nullsub_", "def_"]
def bad_names_list : List String := ["start"]

-- Python str.startswith, expressed over the strings' characters.
def startswith (name bad : String) : Bool :=
  bad.toList.isPrefixOf name.toList

def custom_named (name : String) : Bool :=
  (bad_prefixes_list.all (fun bad => !(startswith name bad))) &&
    (bad_names_list.all (fun bad => !(name == bad)))

def generate_function_defs (img : Image) : List FunctionInfo :=
  (((Functions img).filter (fun address => custom_named (GetFunctionName img address))).map
    (fun address => FunctionInfo.init img (GetFunctionName img address) address)).map
    (generate_function_def img)

/-
find_function_from_string (lines 207-217): Tier A of resolution.
-/

def find_function_from_string_go (img : Image) : List (String × Bool) → Option Nat
  | [] => none
  | (string, unique) :: rest =>
    if unique && (string_name_to_addrs img string).length == 1 then
      if count_generator (XrefsTo img ((string_name_to_addrs img string).headD 0)) == 1 then
        some (funcStartAttr img
          ((XrefsTo img ((string_name_to_addrs img string).headD 0)).headD 0))
      else find_function_from_string_go img rest
    else find_function_from_string_go img rest

def find_function_from_string (img : Image) (func : FunctionInfo) : Option Nat :=
  find_function_from_string_go img func.strings

/-
find_function_from_calling_string (lines 233-267): Tier B.  Candidate
addresses are tallied in a defaultdict, modelled as an insertion-ordered
association list.  With several distinct candidates, the verification loop
(lines 257-264) indexes string_name_to_addrs[string][0] unguarded ([] raises
IndexError), and the final fallback (line 267) calls .iteritems() on the
int/None variable function_address instead of the dict function_addresses,
which raises AttributeError on every path that reaches it.
-/

def tally_inc (t : List (Nat × Nat)) (k : Nat) : List (Nat × Nat) :=
  if t.any (fun p => p.1 == k) then
    t.map (fun p => if p.1 == k then (p.1, p.2 + 1) else p)
  else t ++ [(k, 1)]

def calling_candidate (img : Image) (entry : String × Bool × Int) : Option Nat :=
  let string := entry.1
  let unique := entry.2.1
  let direction := -entry.2.2
  if unique && (string_name_to_addrs img string).length == 1 then
    let string_address := (string_name_to_addrs img string).headD 0
    if count_generator (XrefsTo img string_address) == 1 then
      let reference_address := (XrefsTo img string_address).headD 0
      let end_address :=
        if direction < 0 then funcStartAttr img reference_address
        else funcEndAttr img reference_address
      search_for_call img reference_address end_address direction
    else none
  else none

def calling_tally (img : Image) (entries : List (String × Bool × Int)) : List (Nat × Nat) :=
  entries.foldl (fun t entry =>
    match calling_candidate img entry with
    | some function_address => tally_inc t function_address
    | none => t) []

def verify_by_interior (img : Image) :
    List (String × Bool) → List Nat → Except String (Option Nat)
  | [], _ => Except.error "AttributeError"
  | (string, _) :: rest, addresses =>
    match string_name_to_addrs img string with
    | [] => Except.error "IndexError"
    | string_address :: _ =>
      match ((XrefsTo img string_address).map (funcStartAttr img)).find?
          (fun fa => addresses.contains fa) with
      | some fa => Except.ok (some fa)
      | none => verify_by_interior img rest addresses

def find_function_from_calling_string (img : Image) (func : FunctionInfo) :
    Except String (Option Nat) :=
  let addresses := (calling_tally img func.calling_strings).map (fun p => p.1)
  if addresses.length == 1 then Except.ok (some (addresses.headD 0))
  else if addresses.length == 0 then Except.ok none
  else verify_by_interior img func.strings addresses

/-
find_from_called_functions (lines 269-287) and find_function (lines
289-295): Tier C tallies, per resolved callee, the enclosing functions of
the references to it (dedup per callee), then takes the first key with the
maximal count (Python max keeps the earliest maximal item).
-/

def dedup_first (seen : List Nat) : List Nat → List Nat
  | [] => []
  | x :: xs => if seen.contains x then dedup_first seen xs else x :: dedup_first (x :: seen) xs

def assoc_max : List (Nat × Nat) → Option Nat
  | [] => none
  | p :: rest => some ((rest.foldl (fun best q => if q.2 > best.2 then q else best) p).1)

def caller_vote (img : Image) (called_func_addresses : List Nat) : Option Nat :=
  assoc_max (called_func_addresses.foldl (fun t called_func_address =>
    (dedup_first [] ((XrefsTo img called_func_address).map (funcStartAttr img))).foldl
      tally_inc t) [])

mutual

def find_function (img : Image) : FunctionInfo → Except String (Option Nat)
  | .mk n s e st cs cf =>
    match find_function_from_string img (.mk n s e st cs cf) with
    | some function_address => Except.ok (some function_address)
    | none =>
      match find_function_from_calling_string img (.mk n s e st cs cf) with
      | Except.error err => Except.error err
      | Except.ok (some function_address) => Except.ok (some function_address)
      | Except.ok none =>
        match resolve_called img cf with
        | Except.error err => Except.error err
        | Except.ok called_func_addresses => Except.ok (caller_vote img called_func_addresses)

-- The loop of find_from_called_functions lines 270-274: resolve every callee
-- fingerprint, keeping the successful addresses in order.
def resolve_called (img : Image) : List FunctionInfo → Except String (List Nat)
  | [] => Except.ok []
  | called_func :: rest =>
    match find_function img called_func with
    | Except.error err => Except.error err
    | Except.ok none => resolve_called img rest
    | Except.ok (some a) =>
      match resolve_called img rest with
      | Except.error err => Except.error err
      | Except.ok rest_addrs => Except.ok (a :: rest_addrs)

end

def find_from_called_functions (img : Image) (func : FunctionInfo) : Except String (Option Nat) :=
  match resolve_called img func.called_funcs with
  | Except.error err => Except.error err
  | Except.ok called_func_addresses => Except.ok (caller_vote img called_func_addresses)

-- find_function is the three tiers in order; Tier C only on Tier B's ok-none.
theorem find_function_eq_tiers (img : Image) (func : FunctionInfo) :
    find_function img func =
      match find_function_from_string img func with
      | some function_address => Except.ok (some function_address)
      | none =>
        match find_function_from_calling_string img func with
        | Except.error err => Except.error err
        | Except.ok (some function_address) => Except.ok (some function_address)
        | Except.ok none => find_from_called_functions img func := by
  cases func with
  | mk n s e st cs cf => rfl

/-
Decidable equality for resolution results, for evaluating the resolver on
concrete images.
-/

instance : DecidableEq (Except String (Option Nat)) := fun a b =>
  match a, b with
  | Except.error e1, Except.error e2 =>
    match decEq e1 e2 with
    | isTrue h => isTrue (congrArg Except.error h)
    | isFalse h => isFalse (fun hh => h (Except.error.inj hh))
  | Except.error _, Except.ok _ => isFalse (fun hh => Except.noConfusion hh)
  | Except.ok _, Except.error _ => isFalse (fun hh => Except.noConfusion hh)
  | Except.ok v1, Except.ok v2 =>
    match decEq v1 v2 with
    | isTrue h => isTrue (congrArg Except.ok h)
    | isFalse h => isFalse (fun hh => h (Except.ok.inj hh))

/-
Concrete images used as test vectors by the claim witnesses below.
-/

-- One function, no strings, no cross-references, no callers, no calls.
def imgBarren : Image := Image.mk [] [] [("foo", 100, 108)] [] []

-- One function referencing one globally unique, singly referenced string.
def imgRound : Image := Image.mk [(500, "hello")] [(100, 500)] [("foo", 100, 108)] [] []

-- Unique interior string "uniq" referenced from inside X = [200,216); a
-- conflicting unique calling string "callstr" whose Tier-B scan resolves
-- to Z = 950 via the call at 304 inside Y2.
def imgTierA : Image :=
  Image.mk [(500, "uniq"), (600, "callstr")]
    [(204, 500), (308, 600), (304, 950)]
    [("X", 200, 216), ("Y2", 300, 316), ("Z", 950, 958)]
    [] [304]

def fpTierA : FunctionInfo := FunctionInfo.mk "f" 0 0 [("uniq", true)] [("callstr", true, 4)] []

-- Two unique calling strings whose Tier-B scans resolve to the two distinct
-- candidates 900 and 950; the fingerprint has no interior strings.
def imgTierB : Image :=
  Image.mk [(500, "s1"), (600, "s2")]
    [(208, 500), (308, 600), (204, 900), (304, 950)]
    [("caller1", 200, 216), ("caller2", 300, 316), ("X1", 900, 908), ("Y1", 950, 958)]
    [] [204, 304]

def fpTierB : FunctionInfo := FunctionInfo.mk "g" 0 0 [] [("s1", true, 4), ("s2", true, 4)] []

-- "tgt" is called from ten call sites c0..c9; each call site is followed by
-- a reference to its own globally unique string s0..s9.
def imgEarly : Image :=
  Image.mk
    [(3000, "s0"), (3008, "s1"), (3016, "s2"), (3024, "s3"), (3032, "s4"),
     (3040, "s5"), (3048, "s6"), (3056, "s7"), (3064, "s8"), (3072, "s9")]
    [(2000, 1000), (2004, 3000), (2016, 1000), (2020, 3008), (2032, 1000), (2036, 3016),
     (2048, 1000), (2052, 3024), (2064, 1000), (2068, 3032), (2080, 1000), (2084, 3040),
     (2096, 1000), (2100, 3048), (2112, 1000), (2116, 3056), (2128, 1000), (2132, 3064),
     (2144, 1000), (2148, 3072)]
    [("tgt", 1000, 1008),
     ("c0", 2000, 2012), ("c1", 2016, 2028), ("c2", 2032, 2044), ("c3", 2048, 2060),
     ("c4", 2064, 2076), ("c5", 2080, 2092), ("c6", 2096, 2108), ("c7", 2112, 2124),
     ("c8", 2128, 2140), ("c9", 2144, 2156)]
    []
    [2000, 2016, 2032, 2048, 2064, 2080, 2096, 2112, 2128, 2144]

-- "main" has no string evidence and no callers but calls "a" and "b".
def imgFall : Image :=
  Image.mk [] [(100, 200), (104, 300)] [("main", 100, 120), ("a", 200, 208), ("b", 300, 308)]
    [] [100, 104]

-- "big" has no string evidence and calls eleven distinct functions.
def imgBig : Image :=
  Image.mk []
    [(100, 1000), (104, 1100), (108, 1200), (112, 1300), (116, 1400), (120, 1500),
     (124, 1600), (128, 1700), (132, 1800), (136, 1900), (140, 2000)]
    [("big", 100, 148),
     ("t0", 1000, 1008), ("t1", 1100, 1108), ("t2", 1200, 1208), ("t3", 1300, 1308),
     ("t4", 1400, 1408), ("t5", 1500, 1508), ("t6", 1600, 1608), ("t7", 1700, 1708),
     ("t8", 1800, 1808), ("t9", 1900, 1908), ("t10", 2000, 2008)]
    [] [100, 104, 108, 112, 116, 120, 124, 128, 132, 136, 140]

-- One custom-named function next to two autogenerated-named ones.
def imgNames : Image :=
  Image.mk [] [] [("alpha", 100, 108), ("sub_4", 200, 208), ("start", 300, 308)] [] []

/-
Basic lemmas about the embedded operations.
-/

theorem foldl_count (l : List Nat) (n : Nat) :
    l.foldl (fun cnt _ => cnt + 1) n = n + l.length := by
  induction l generalizing n with
  | nil => simp
  | cons x xs ih => simp [List.foldl, ih]; omega

theorem count_generator_eq_length (l : List Nat) : count_generator l = l.length := by
  unfold count_generator; rw [foldl_count]; omega

theorem expand_strings_strings (f : FunctionInfo) (infos : List (String × Bool)) :
    (f.expand_strings infos).strings = f.strings ++ infos := by
  cases f; rfl

theorem expand_strings_calling (f : FunctionInfo) (infos : List (String × Bool)) :
    (f.expand_strings infos).calling_strings = f.calling_strings := by
  cases f; rfl

theorem expand_strings_called (f : FunctionInfo) (infos : List (String × Bool)) :
    (f.expand_strings infos).called_funcs = f.called_funcs := by
  cases f; rfl

theorem expand_strings_name (f : FunctionInfo) (infos : List (String × Bool)) :
    (f.expand_strings infos).name = f.name := by
  cases f; rfl

theorem add_calling_string_strings (f : FunctionInfo) (s : String) (u : Bool) (d : Int) :
    (f.add_calling_string s u d).strings = f.strings := by
  cases f; rfl

theorem add_calling_string_calling (f : FunctionInfo) (s : String) (u : Bool) (d : Int) :
    (f.add_calling_string s u d).calling_strings = f.calling_strings ++ [(s, u, d)] := by
  cases f; rfl

theorem add_calling_string_called (f : FunctionInfo) (s : String) (u : Bool) (d : Int) :
    (f.add_calling_string s u d).called_funcs = f.called_funcs := by
  cases f; rfl

theorem add_calling_string_name (f : FunctionInfo) (s : String) (u : Bool) (d : Int) :
    (f.add_calling_string s u d).name = f.name := by
  cases f; rfl

theorem set_call_info_strings (f : FunctionInfo) (l : List FunctionInfo) :
    (f.set_call_info l).strings = f.strings := by
  cases f; rfl

theorem set_call_info_calling (f : FunctionInfo) (l : List FunctionInfo) :
    (f.set_call_info l).calling_strings = f.calling_strings := by
  cases f; rfl

theorem set_call_info_called (f : FunctionInfo) (l : List FunctionInfo) :
    (f.set_call_info l).called_funcs = l := by
  cases f; rfl

theorem set_call_info_name (f : FunctionInfo) (l : List FunctionInfo) :
    (f.set_call_info l).name = f.name := by
  cases f; rfl

theorem process_call_site_eq (img : Image) (f : FunctionInfo) (a : Nat) :
    process_call_site img f a =
      if is_call_insn img a then
        (match search_for_string_before_call img a (funcStartAttr img a)
            (-(ADDR_WIDTH : Int)) false with
        | some sa =>
          (match search_for_string_before_call img a (funcEndAttr img a)
              (ADDR_WIDTH : Int) false with
          | some sb =>
            f.add_calling_string (GetString img sb) (string_is_unique img sb) (ADDR_WIDTH : Int)
          | none => f).add_calling_string (GetString img sa) (string_is_unique img sa)
            (-(ADDR_WIDTH : Int))
        | none =>
          match search_for_string_before_call img a (funcEndAttr img a)
              (ADDR_WIDTH : Int) false with
          | some sb =>
            f.add_calling_string (GetString img sb) (string_is_unique img sb) (ADDR_WIDTH : Int)
          | none => f)
      else f := by
  unfold process_call_site
  by_cases h : is_call_insn img a
  · simp only [h, if_true]
  · simp only [h, if_false]

theorem process_call_site_strings (img : Image) (f : FunctionInfo) (a : Nat) :
    (process_call_site img f a).strings = f.strings := by
  rw [process_call_site_eq]
  split
  · split <;> split <;> simp [add_calling_string_strings]
  · rfl

theorem process_call_site_called (img : Image) (f : FunctionInfo) (a : Nat) :
    (process_call_site img f a).called_funcs = f.called_funcs := by
  rw [process_call_site_eq]
  split
  · split <;> split <;> simp [add_calling_string_called]
  · rfl

theorem process_call_site_name (img : Image) (f : FunctionInfo) (a : Nat) :
    (process_call_site img f a).name = f.name := by
  rw [process_call_site_eq]
  split
  · split <;> split <;> simp [add_calling_string_name]
  · rfl

theorem calling_scan_cons (img : Image) (f : FunctionInfo) (a : Nat) (rest : List Nat) :
    calling_scan img f (a :: rest) =
      if (process_call_site img f a).has_enough = true then process_call_site img f a
      else calling_scan img (process_call_site img f a) rest := rfl

theorem calling_scan_strings (img : Image) (l : List Nat) (f : FunctionInfo) :
    (calling_scan img f l).strings = f.strings := by
  induction l generalizing f with
  | nil => rfl
  | cons a rest ih =>
    rw [calling_scan_cons]
    split
    · exact process_call_site_strings img f a
    · rw [ih, process_call_site_strings]

theorem calling_scan_called (img : Image) (l : List Nat) (f : FunctionInfo) :
    (calling_scan img f l).called_funcs = f.called_funcs := by
  induction l generalizing f with
  | nil => rfl
  | cons a rest ih =>
    rw [calling_scan_cons]
    split
    · exact process_call_site_called img f a
    · rw [ih, process_call_site_called]

theorem calling_scan_name (img : Image) (l : List Nat) (f : FunctionInfo) :
    (calling_scan img f l).name = f.name := by
  induction l generalizing f with
  | nil => rfl
  | cons a rest ih =>
    rw [calling_scan_cons]
    split
    · exact process_call_site_name img f a
    · rw [ih, process_call_site_name]

theorem bool_eq_false {b : Bool} (h : ¬(b = true)) : b = false := by
  cases b
  · rfl
  · exact absurd rfl h

theorem shallow_strings (img : Image) (f : FunctionInfo) :
    (generate_function_def_shallow img f).strings =
      f.strings ++ get_strings_from_function img f := by
  unfold generate_function_def_shallow
  rw [calling_scan_strings, expand_strings_strings]

theorem shallow_called (img : Image) (f : FunctionInfo) :
    (generate_function_def_shallow img f).called_funcs = f.called_funcs := by
  unfold generate_function_def_shallow
  rw [calling_scan_called, expand_strings_called]

theorem shallow_name (img : Image) (f : FunctionInfo) :
    (generate_function_def_shallow img f).name = f.name := by
  unfold generate_function_def_shallow
  rw [calling_scan_name, expand_strings_name]

theorem generate_function_def_eq (img : Image) (f : FunctionInfo) :
    generate_function_def img f =
      if (generate_function_def_shallow img f).has_enough = true then
        generate_function_def_shallow img f
      else
        (generate_function_def_shallow img f).set_call_info
          (generate_call_info img (generate_function_def_shallow img f)) := rfl

theorem build_strings (img : Image) (f : FunctionInfo) :
    (generate_function_def img f).strings = f.strings ++ get_strings_from_function img f := by
  rw [generate_function_def_eq]
  split
  · exact shallow_strings img f
  · rw [set_call_info_strings, shallow_strings]

theorem build_calling_eq_shallow (img : Image) (f : FunctionInfo) :
    (generate_function_def img f).calling_strings =
      (generate_function_def_shallow img f).calling_strings := by
  rw [generate_function_def_eq]
  split
  · rfl
  · rw [set_call_info_calling]

theorem build_name (img : Image) (f : FunctionInfo) :
    (generate_function_def img f).name = f.name := by
  rw [generate_function_def_eq]
  split
  · exact shallow_name img f
  · rw [set_call_info_name, shallow_name]

/-- C4: the uniqueness test `string_is_unique` accepts a string address
exactly when precisely one cross-reference of the image targets that
address and precisely one string record of the image holds the text found
at that address. -/
theorem string_is_unique_iff (img : Image) (a : Nat) (_ha : a ∈ string_addrs img) :
    string_is_unique img a = true ↔
      (img.xrefs.countP (fun x => x.2 == a) = 1 ∧
       img.strings.countP (fun r => r.2 == GetString img a) = 1) := by
  unfold string_is_unique string_cnts
  rw [Bool.and_eq_true, beq_iff_eq, beq_iff_eq, count_generator_eq_length]
  unfold XrefsTo
  rw [List.length_map, List.countP_eq_length_filter, List.countP_eq_length_filter]

/-- C4 witness: the string address 500 of `imgRound` has exactly one
cross-reference and its text "hello" occurs once, and `string_is_unique`
accepts it. -/
theorem string_is_unique_iff_witness :
    string_is_unique imgRound 500 = true ↔
      (imgRound.xrefs.countP (fun x => x.2 == 500) = 1 ∧
       imgRound.strings.countP (fun r => r.2 == GetString imgRound 500) = 1) :=
  string_is_unique_iff imgRound 500 (by decide)

/-- C5: the calling-string scan stops early: as soon as the fingerprint
reports `has_enough` (2 unique interior strings or 5 unique calling
strings) after processing a call site, the remaining call sites are never
scanned — appending further call sites to the worklist does not change
the result. -/
theorem calling_scan_early_stop (img : Image) (func : FunctionInfo) (a : Nat) (l1 l2 : List Nat)
    (h : (calling_scan img func (a :: l1)).has_enough = true) :
    calling_scan img func (a :: l1 ++ l2) = calling_scan img func (a :: l1) := by
  induction l1 generalizing func a with
  | nil =>
    simp only [List.cons_append, List.nil_append]
    conv_lhs => rw [calling_scan_cons]
    conv_rhs => rw [calling_scan_cons]
    rw [calling_scan_cons] at h
    by_cases hp : (process_call_site img func a).has_enough = true
    · rw [if_pos hp, if_pos hp]
    · rw [if_neg hp] at h
      rw [show calling_scan img (process_call_site img func a) [] =
        process_call_site img func a from rfl] at h
      exact absurd h hp
  | cons b l1t ih =>
    simp only [List.cons_append] at ih ⊢
    conv_lhs => rw [calling_scan_cons]
    conv_rhs => rw [calling_scan_cons]
    rw [calling_scan_cons] at h
    by_cases hp : (process_call_site img func a).has_enough = true
    · rw [if_pos hp, if_pos hp]
    · rw [if_neg hp] at h
      rw [if_neg hp, if_neg hp]
      exact ih (process_call_site img func a) b h

/-- C5 witness: in `imgEarly` the target has ten call sites, each
contributing one unique calling string; the scan of the first five already
has enough, the remaining five are never scanned, and the built fingerprint
records exactly 5 calling strings. -/
theorem calling_scan_early_stop_witness :
    calling_scan imgEarly (FunctionInfo.init imgEarly "tgt" 1000)
        ([2000, 2016, 2032, 2048, 2064] ++ [2080, 2096, 2112, 2128, 2144]) =
      calling_scan imgEarly (FunctionInfo.init imgEarly "tgt" 1000)
        [2000, 2016, 2032, 2048, 2064] ∧
    (generate_function_def imgEarly
      (FunctionInfo.init imgEarly "tgt" 1000)).calling_strings.length = 5 ∧
    (XrefsTo imgEarly 1000).length = 10 :=
  ⟨calling_scan_early_stop imgEarly (FunctionInfo.init imgEarly "tgt" 1000) 2000
    [2016, 2032, 2048, 2064] [2080, 2096, 2112, 2128, 2144] (by decide),
   by decide, by decide⟩

theorem add_calling_string_unique_count (f : FunctionInfo) (s : String) (u : Bool) (d : Int) :
    (f.add_calling_string s u d).unique_calling_count ≤ f.unique_calling_count + 1 := by
  unfold FunctionInfo.unique_calling_count
  rw [add_calling_string_calling, List.filter_append, List.length_append]
  cases u <;> simp [List.filter]

theorem process_call_site_unique_count (img : Image) (f : FunctionInfo) (a : Nat) :
    (process_call_site img f a).unique_calling_count ≤ f.unique_calling_count + 2 := by
  rw [process_call_site_eq]
  by_cases h : is_call_insn img a
  · rw [if_pos h]
    cases search_for_string_before_call img a (funcStartAttr img a)
        (-(ADDR_WIDTH : Int)) false with
    | none =>
      cases search_for_string_before_call img a (funcEndAttr img a) (ADDR_WIDTH : Int) false with
      | none => dsimp only; omega
      | some sb =>
        dsimp only
        have h1 := add_calling_string_unique_count f (GetString img sb)
          (string_is_unique img sb) (ADDR_WIDTH : Int)
        omega
    | some sa =>
      cases search_for_string_before_call img a (funcEndAttr img a) (ADDR_WIDTH : Int) false with
      | none =>
        dsimp only
        have h1 := add_calling_string_unique_count f (GetString img sa)
          (string_is_unique img sa) (-(ADDR_WIDTH : Int))
        omega
      | some sb =>
        dsimp only
        have h1 := add_calling_string_unique_count f (GetString img sb)
          (string_is_unique img sb) (ADDR_WIDTH : Int)
        have h2 := add_calling_string_unique_count
          (f.add_calling_string (GetString img sb) (string_is_unique img sb) (ADDR_WIDTH : Int))
          (GetString img sa) (string_is_unique img sa) (-(ADDR_WIDTH : Int))
        omega
  · rw [if_neg h]
    omega

theorem not_enough_calling (f : FunctionInfo) (h : f.has_enough = false) :
    f.unique_calling_count < MAX_UNIQUE_CALLING_STRINGS := by
  unfold FunctionInfo.has_enough at h
  by_cases h1 : f.unique_string_count ≥ MAX_UNIQUE_STRINGS
  · rw [if_pos h1] at h
    cases h
  · rw [if_neg h1] at h
    by_cases h2 : f.unique_calling_count ≥ MAX_UNIQUE_CALLING_STRINGS
    · rw [if_pos h2] at h
      cases h
    · omega

theorem not_enough_strings (f : FunctionInfo) (h : f.has_enough = false) :
    f.unique_string_count < MAX_UNIQUE_STRINGS := by
  unfold FunctionInfo.has_enough at h
  by_cases h1 : f.unique_string_count ≥ MAX_UNIQUE_STRINGS
  · rw [if_pos h1] at h
    cases h
  · omega

theorem calling_scan_unique_bound (img : Image) (l : List Nat) (f : FunctionInfo)
    (h : f.unique_calling_count < MAX_UNIQUE_CALLING_STRINGS) :
    (calling_scan img f l).unique_calling_count ≤ MAX_UNIQUE_CALLING_STRINGS + 1 := by
  induction l generalizing f with
  | nil =>
    rw [show calling_scan img f [] = f from rfl]
    omega
  | cons a rest ih =>
    rw [calling_scan_cons]
    have hp := process_call_site_unique_count img f a
    by_cases he : (process_call_site img f a).has_enough = true
    · rw [if_pos he]
      omega
    · rw [if_neg he]
      exact ih (process_call_site img f a) (not_enough_calling _ (bool_eq_false he))

/-- C10: every built fingerprint records at most
MAX_UNIQUE_CALLING_STRINGS + 1 = 6 unique calling strings: one call site may
append a forward and a backward calling string before the early-stop check
runs, so the count can overshoot the threshold of 5 by at most one. -/
theorem unique_calling_strings_at_most_six (img : Image) (nm : String) (address : Nat) :
    (generate_function_def img (FunctionInfo.init img nm address)).unique_calling_count ≤
      MAX_UNIQUE_CALLING_STRINGS + 1 := by
  unfold FunctionInfo.unique_calling_count
  rw [build_calling_eq_shallow]
  unfold generate_function_def_shallow
  have hstart : ((FunctionInfo.init img nm address).expand_strings
      (get_strings_from_function img (FunctionInfo.init img nm address))).unique_calling_count <
      MAX_UNIQUE_CALLING_STRINGS := by
    unfold FunctionInfo.unique_calling_count
    rw [expand_strings_calling]
    rw [show (FunctionInfo.init img nm address).calling_strings = [] from rfl]
    unfold MAX_UNIQUE_CALLING_STRINGS
    simp
  exact calling_scan_unique_bound img _ _ hstart

/-- C6: every fingerprint appearing in the fallback_callees of a built
fingerprint is shallow: its own fallback_callees sequence is empty, so the
call-graph fallback never recurses past depth 1. -/
theorem fallback_callees_carry_no_fallback (img : Image) (nm : String) (address : Nat)
    (c : FunctionInfo)
    (hc : c ∈ (generate_function_def img (FunctionInfo.init img nm address)).called_funcs) :
    c.called_funcs = [] := by
  rw [generate_function_def_eq] at hc
  by_cases hb : (generate_function_def_shallow img
      (FunctionInfo.init img nm address)).has_enough = true
  · rw [if_pos hb, shallow_called] at hc
    rw [show (FunctionInfo.init img nm address).called_funcs = [] from rfl] at hc
    cases hc
  · rw [if_neg hb, set_call_info_called] at hc
    unfold generate_call_info at hc
    rcases List.mem_map.mp hc with ⟨p, hp, rfl⟩
    rw [shallow_called]
    rfl

/-- C6 witness: in `imgFall`, "main" falls back to its callees; the first
recorded fallback callee is the shallow fingerprint of "a", and it carries
no fallback callees of its own. -/
theorem fallback_callees_carry_no_fallback_witness :
    FunctionInfo.mk "a" 200 208 [] [] [] ∈
      (generate_function_def imgFall (FunctionInfo.init imgFall "main" 100)).called_funcs ∧
    (FunctionInfo.mk "a" 200 208 [] [] []).called_funcs = [] :=
  ⟨List.Mem.head _,
   fallback_callees_carry_no_fallback imgFall "main" 100 _ (List.Mem.head _)⟩

/-- C7: a built fingerprint has a non-empty fallback_callees sequence only
if, after the interior and calling-context scans, it holds fewer than 2
unique interior strings and fewer than 5 unique calling strings. -/
theorem fallback_only_if_thresholds_unmet (img : Image) (nm : String) (address : Nat)
    (h : (generate_function_def img (FunctionInfo.init img nm address)).called_funcs.length ≠ 0) :
    (generate_function_def img (FunctionInfo.init img nm address)).unique_string_count <
        MAX_UNIQUE_STRINGS ∧
      (generate_function_def img (FunctionInfo.init img nm address)).unique_calling_count <
        MAX_UNIQUE_CALLING_STRINGS := by
  by_cases hb : (generate_function_def_shallow img
      (FunctionInfo.init img nm address)).has_enough = true
  · rw [generate_function_def_eq, if_pos hb, shallow_called] at h
    rw [show (FunctionInfo.init img nm address).called_funcs = [] from rfl] at h
    simp at h
  · have hee := bool_eq_false hb
    rw [generate_function_def_eq, if_neg hb]
    constructor
    · unfold FunctionInfo.unique_string_count
      rw [set_call_info_strings]
      exact not_enough_strings _ hee
    · unfold FunctionInfo.unique_calling_count
      rw [set_call_info_calling]
      exact not_enough_calling _ hee

/-- C7 witness: "main" in `imgFall` has fallback callees (two of them), and
its built fingerprint indeed holds fewer unique strings than both
thresholds. -/
theorem fallback_only_if_thresholds_unmet_witness :
    (generate_function_def imgFall (FunctionInfo.init imgFall "main" 100)).unique_string_count <
        MAX_UNIQUE_STRINGS ∧
      (generate_function_def imgFall (FunctionInfo.init imgFall "main" 100)).unique_calling_count <
        MAX_UNIQUE_CALLING_STRINGS :=
  fallback_only_if_thresholds_unmet imgFall "main" 100 (by decide)

/-- C8: the build enforces no cap on the number of fallback callees: in
`imgBig` the function "big" calls eleven distinct targets with no string
evidence anywhere, and its built fingerprint records all 11 fallback
callees, exceeding the configured MAX_CALLED_FUNCTIONS = 10, which the
source never consults. -/
theorem no_cap_on_fallback_callees :
    (generate_function_def imgBig (FunctionInfo.init imgBig "big" 100)).called_funcs.length = 11 ∧
      MAX_CALLED_FUNCTIONS <
        (generate_function_def imgBig (FunctionInfo.init imgBig "big" 100)).called_funcs.length :=
  ⟨by decide, by decide⟩

/-
Tier A characterized: an interior-strings entry qualifies when its unique
flag is set, the target image holds exactly one record of its text, and
that record's address has exactly one cross-reference; the tier's answer is
the enclosing-function start of that sole reference.
-/

def tierA_qualifies (img : Image) (p : String × Bool) : Bool :=
  p.2 && (string_name_to_addrs img p.1).length == 1 &&
    count_generator (XrefsTo img ((string_name_to_addrs img p.1).headD 0)) == 1

def tierA_value (img : Image) (s : String) : Nat :=
  funcStartAttr img ((XrefsTo img ((string_name_to_addrs img s).headD 0)).headD 0)

theorem ffs_go_eq (img : Image) (l : List (String × Bool)) :
    find_function_from_string_go img l =
      (l.find? (tierA_qualifies img)).map (fun p => tierA_value img p.1) := by
  induction l with
  | nil => rfl
  | cons p rest ih =>
    obtain ⟨string, unique⟩ := p
    unfold find_function_from_string_go
    by_cases h1 : (unique && (string_name_to_addrs img string).length == 1) = true
    · by_cases h2 : (count_generator (XrefsTo img
          ((string_name_to_addrs img string).headD 0)) == 1) = true
      · have hq : tierA_qualifies img (string, unique) = true := by
          unfold tierA_qualifies
          rw [Bool.and_eq_true]
          exact ⟨h1, h2⟩
        rw [if_pos h1, if_pos h2, List.find?_cons_of_pos _ hq]
        rfl
      · have hq : ¬(tierA_qualifies img (string, unique) = true) := by
          unfold tierA_qualifies
          rw [Bool.and_eq_true]
          intro hcon
          exact h2 hcon.2
        rw [if_pos h1, if_neg h2, List.find?_cons_of_neg _ hq]
        exact ih
    · have hq : ¬(tierA_qualifies img (string, unique) = true) := by
        unfold tierA_qualifies
        rw [Bool.and_eq_true]
        intro hcon
        exact h1 hcon.1
      rw [if_neg h1, List.find?_cons_of_neg _ hq]
      exact ih

theorem tierA_resolves (img : Image) (func : FunctionInfo) (p : String × Bool)
    (h : func.strings.find? (tierA_qualifies img) = some p) :
    find_function img func = Except.ok (some (tierA_value img p.1)) := by
  have hA : find_function_from_string img func = some (tierA_value img p.1) := by
    unfold find_function_from_string
    rw [ffs_go_eq, h]
    rfl
  rw [find_function_eq_tiers, hA]

/-- C2: resolution returns Tier A's result whenever some interior-strings
entry qualifies (unique flag set, exactly one record of the text in the
target, exactly one cross-reference to it): `find_function` then returns
the enclosing-function start of that sole reference — the first qualifying
entry's — without ever consulting the calling strings. -/
theorem resolve_tierA_short_circuit (img : Image) (func : FunctionInfo) (p : String × Bool)
    (h : func.strings.find? (tierA_qualifies img) = some p) :
    find_function img func = Except.ok (some (tierA_value img p.1)) :=
  tierA_resolves img func p h

/-- C2 witness: in `imgTierA` the fingerprint's unique interior string
points into X = 200 while its calling-string evidence, had Tier B run,
resolves to the different function Z = 950; resolution returns 200. -/
theorem resolve_tierA_short_circuit_witness :
    find_function imgTierA fpTierA = Except.ok (some 200) ∧
      find_function_from_calling_string imgTierA fpTierA = Except.ok (some 950) :=
  ⟨resolve_tierA_short_circuit imgTierA fpTierA ("uniq", true) (by decide), by decide⟩

/-
Round trip over one unchanged image (C1).
-/

theorem mem_get_strings (img : Image) (func : FunctionInfo) (p : String × Bool)
    (hp : p ∈ get_strings_from_function img func) :
    ∃ a ∈ addrRange func.start func.endAddr ADDR_WIDTH, ∃ t ∈ XrefsFrom img a,
      t ∈ string_addrs img ∧ p = (GetString img t, string_is_unique img t) := by
  unfold get_strings_from_function at hp
  rcases List.mem_flatMap.mp hp with ⟨a, ha, hpa⟩
  rcases List.mem_map.mp hpa with ⟨t, ht, rfl⟩
  have h2 := List.mem_filter.mp ht
  refine ⟨a, ha, t, h2.1, ?_, rfl⟩
  simpa using h2.2

theorem xref_mem_of_from (img : Image) (a t : Nat) (h : t ∈ XrefsFrom img a) :
    a ∈ XrefsTo img t := by
  unfold XrefsFrom at h
  unfold XrefsTo
  rcases List.mem_map.mp h with ⟨x, hx, hxt⟩
  have hm := List.mem_filter.mp hx
  refine List.mem_map.mpr ⟨x, List.mem_filter.mpr ⟨hm.1, ?_⟩, ?_⟩
  · simp [hxt]
  · simpa using hm.2

theorem addrs_of_unique (img : Image) (t : Nat) (ht : t ∈ string_addrs img)
    (h1 : string_cnts img (GetString img t) = 1) :
    string_name_to_addrs img (GetString img t) = [t] := by
  unfold string_addrs at ht
  rcases List.mem_map.mp ht with ⟨r, hr, hrt⟩
  have hsome : (img.strings.find? (fun q => q.1 == t)).isSome :=
    List.find?_isSome.mpr ⟨r, hr, by simp [hrt]⟩
  obtain ⟨r0, hr0⟩ := Option.isSome_iff_exists.mp hsome
  have hr0mem : r0 ∈ img.strings := List.mem_of_find?_eq_some hr0
  have hr0t : r0.1 = t := by
    have := List.find?_some hr0
    simpa using this
  have hGet : GetString img t = r0.2 := by
    unfold GetString
    rw [hr0]
  have hmemf : r0 ∈ img.strings.filter (fun q => q.2 == GetString img t) :=
    List.mem_filter.mpr ⟨hr0mem, by simp [hGet]⟩
  unfold string_cnts at h1
  obtain ⟨x, hx⟩ := List.length_eq_one.mp h1
  rw [hx] at hmemf
  have hxr : x = r0 := (List.mem_singleton.mp hmemf).symm
  unfold string_name_to_addrs
  rw [hx, hxr]
  simp [hr0t]

theorem unique_interior_qualifies (img : Image) (func : FunctionInfo) (p : String × Bool)
    (hp : p ∈ get_strings_from_function img func) (hu : p.2 = true) :
    tierA_qualifies img p = true ∧
      ∃ a ∈ addrRange func.start func.endAddr ADDR_WIDTH,
        tierA_value img p.1 = funcStartAttr img a := by
  rcases mem_get_strings img func p hp with ⟨a, ha, t, hxf, hts, hpe⟩
  subst hpe
  have hun : string_is_unique img t = true := hu
  have hun2 := hun
  unfold string_is_unique at hun2
  rw [Bool.and_eq_true] at hun2
  have hcnt : string_cnts img (GetString img t) = 1 := by
    have := hun2.2
    simpa using this
  have hxlen : (XrefsTo img t).length = 1 := by
    have := hun2.1
    rw [count_generator_eq_length] at this
    simpa using this
  have haddrs := addrs_of_unique img t hts hcnt
  have hmx : a ∈ XrefsTo img t := xref_mem_of_from img a t hxf
  obtain ⟨y, hy⟩ := List.length_eq_one.mp hxlen
  have hya : y = a := by
    rw [hy] at hmx
    exact (List.mem_singleton.mp hmx).symm
  subst hya
  constructor
  · unfold tierA_qualifies
    simp only [haddrs]
    simp [hun, hy, count_generator_eq_length]
  · refine ⟨y, ha, ?_⟩
    unfold tierA_value
    simp only [haddrs]
    simp [hy]

/-- C1 (amended): the self round-trip resolve(build(f), I) = start(f) holds
when the built fingerprint records at least one unique-flagged interior
string and every scanned body address of f maps back to f's start (the
image's function ranges are consistent); the unamended claim fails for
functions without evidence (see the counterexample). -/
theorem build_resolve_roundtrip_of_unique_interior (img : Image) (nm : String) (A : Nat)
    (hw : ∀ a ∈ addrRange A (funcEndAttr img A) ADDR_WIDTH, funcStartAttr img a = A)
    (hu : ∃ p ∈ (generate_function_def img (FunctionInfo.init img nm A)).strings, p.2 = true) :
    find_function img (generate_function_def img (FunctionInfo.init img nm A)) =
      Except.ok (some A) := by
  obtain ⟨p, hp, hpu⟩ := hu
  rw [build_strings, show (FunctionInfo.init img nm A).strings = [] from rfl,
    List.nil_append] at hp
  have hq := (unique_interior_qualifies img (FunctionInfo.init img nm A) p hp hpu).1
  have hex : ∃ q, q ∈ (generate_function_def img (FunctionInfo.init img nm A)).strings ∧
      tierA_qualifies img q = true := by
    refine ⟨p, ?_, hq⟩
    rw [build_strings, show (FunctionInfo.init img nm A).strings = [] from rfl,
      List.nil_append]
    exact hp
  obtain ⟨q, hfind⟩ := Option.isSome_iff_exists.mp (List.find?_isSome.mpr hex)
  have hqmem := List.mem_of_find?_eq_some hfind
  have hqq : tierA_qualifies img q = true := List.find?_some hfind
  have hq2 : q.2 = true := by
    unfold tierA_qualifies at hqq
    rw [Bool.and_eq_true, Bool.and_eq_true] at hqq
    exact hqq.1.1
  rw [build_strings, show (FunctionInfo.init img nm A).strings = [] from rfl,
    List.nil_append] at hqmem
  obtain ⟨hq_qual, a, ha, hval⟩ :=
    unique_interior_qualifies img (FunctionInfo.init img nm A) q hqmem hq2
  rw [tierA_resolves img _ q hfind, hval, hw a ha]

/-- C1 counterexample: the claim as stated fails on `imgBarren`: the sole
function has no strings, no callers and no callees, its fingerprint holds
no evidence, and resolving it against the unchanged image returns no
address rather than 100. -/
theorem roundtrip_fails_without_evidence :
    find_function imgBarren
        (generate_function_def imgBarren (FunctionInfo.init imgBarren "foo" 100)) ≠
      Except.ok (some 100) := by decide

/-- C1 witness: in `imgRound`, "foo" references the globally unique string
"hello"; building and resolving over the same image returns foo's start. -/
theorem build_resolve_roundtrip_of_unique_interior_witness :
    find_function imgRound
        (generate_function_def imgRound (FunctionInfo.init imgRound "foo" 100)) =
      Except.ok (some 100) :=
  build_resolve_roundtrip_of_unique_interior imgRound "foo" 100 (by decide) (by decide)

/-- C3: on a fingerprint whose Tier-B scan yields two distinct candidates
(900 and 950) and whose interior strings are empty (so the verification
loop can match nothing), resolution does not return the highest-tally
candidate: line 267 evaluates `function_address.iteritems()` on an int and
raises AttributeError. -/
theorem tierB_multi_candidate_fallback_crashes :
    find_function imgTierB fpTierB = Except.error "AttributeError" ∧
      (calling_tally imgTierB fpTierB.calling_strings).map (fun q => q.1) = [900, 950] ∧
      fpTierB.strings = [] :=
  ⟨by decide, by decide, rfl⟩

/-- C9: every fingerprint produced by generate_function_defs carries a
custom name: it does not start with "sub_", "nullsub_" or "def_", and is
not "start"; functions with such autogenerated names are skipped. -/
theorem build_filters_autogenerated_names (img : Image) (F : FunctionInfo)
    (h : F ∈ generate_function_defs img) :
    startswith F.name "sub_" = false ∧ startswith F.name "nullsub_" = false ∧
      startswith F.name "def_" = false ∧ F.name ≠ "start" := by
  unfold generate_function_defs at h
  rcases List.mem_map.mp h with ⟨g, hg, rfl⟩
  rcases List.mem_map.mp hg with ⟨address, ha, rfl⟩
  rw [build_name]
  rw [show (FunctionInfo.init img (GetFunctionName img address) address).name =
    GetFunctionName img address from rfl]
  have hc := (List.mem_filter.mp ha).2
  unfold custom_named bad_prefixes_list bad_names_list at hc
  simp only [List.all_cons, List.all_nil, Bool.and_eq_true, Bool.not_eq_true'] at hc
  refine ⟨hc.1.1, hc.1.2.1, hc.1.2.2.1, ?_⟩
  have hb := hc.2.1
  intro hcon
  rw [hcon] at hb
  simp at hb

/-- C9 witness: in `imgNames` only "alpha" is custom-named among "alpha",
"sub_4" and "start"; its built fingerprint is the sole output and its name
passes every filter. -/
theorem build_filters_autogenerated_names_witness :
    FunctionInfo.mk "alpha" 100 108 [] [] [] ∈ generate_function_defs imgNames ∧
      (startswith (FunctionInfo.mk "alpha" 100 108 [] [] []).name "sub_" = false ∧
        startswith (FunctionInfo.mk "alpha" 100 108 [] [] []).name "nullsub_" = false ∧
        startswith (FunctionInfo.mk "alpha" 100 108 [] [] []).name "def_" = false ∧
        (FunctionInfo.mk "alpha" 100 108 [] [] []).name ≠ "start") := by
  have hl : generate_function_defs imgNames = [FunctionInfo.mk "alpha" 100 108 [] [] []] := rfl
  have hm : FunctionInfo.mk "alpha" 100 108 [] [] [] ∈ generate_function_defs imgNames := by
    rw [hl]
    exact List.Mem.head _
  exact ⟨hm, build_filters_autogenerated_names imgNames _ hm⟩

-- Three call sites, each with a unique string after and a unique string
-- before the call: sites contribute two unique calling strings at a time,
-- so the count jumps from 4 to 6, overshooting the threshold of 5.
def imgSix : Image :=
  Image.mk
    [(3000, "f0"), (3008, "b0"), (3016, "f1"), (3024, "b1"), (3032, "f2"), (3040, "b2")]
    [(2000, 1000), (2004, 3000), (1996, 3008),
     (2032, 1000), (2036, 3016), (2028, 3024),
     (2064, 1000), (2068, 3032), (2060, 3040)]
    [("tgt", 1000, 1008), ("c0", 1992, 2012), ("c1", 2024, 2044), ("c2", 2056, 2076)]
    [] [2000, 2032, 2064]

-- The C10 bound is tight: on imgSix the build records exactly 6 unique
-- calling strings.
theorem unique_calling_bound_is_tight :
    (generate_function_def imgSix (FunctionInfo.init imgSix "tgt" 1000)).unique_calling_count =
      MAX_UNIQUE_CALLING_STRINGS + 1 := by decide
